import Mathlib

/-!
Verification development for the AgentHelp repository: a browser SPA that
connects a Google account, lists Google Classroom courses and assignments,
asks a generative AI for solution files, and downloads / zips / uploads the
result.

The model below is a shallow embedding of the repository code.  External
services (Google Classroom / Drive REST calls, the AI completion endpoint,
script loading) are modelled as explicit environments whose fallible calls
return `Except String α`; a thrown JS error is an `Except.error` carrying the
error message.  Functions that issue external calls additionally return the
list of calls they made, so that statements such as "turnIn is never issued
on upload failure" are about an explicit call trace.
-/

namespace AgentHelp

/-! ## Data model (src/types.ts) -/

/-- Model of the drive-file record inside an `Attachment` (types.ts). -/
structure DriveFile where
  id : String
  title : String
  alternateLink : String
  mimeType : String
deriving DecidableEq, Repr

/-- Model of `Attachment` (types.ts). -/
structure Attachment where
  title : String
  driveFile : DriveFile
deriving DecidableEq, Repr

/-- Model of `Course` (types.ts).  The TS field `section` is a Lean keyword,
hence the guillemets. -/
structure Course where
  id : String
  name : String
  «section» : String
  teacher : String
deriving DecidableEq, Repr

/-- Model of `Assignment` (types.ts); `studentSubmissionId` is optional in the
source (`studentSubmissionId?: string`). -/
structure Assignment where
  id : String
  courseId : String
  title : String
  description : String
  dueDate : String
  attachments : List Attachment
  studentSubmissionId : Option String
deriving DecidableEq, Repr

/-- Model of `GeneratedFile` (types.ts): one file produced by the AI. -/
structure GeneratedFile where
  name : String
  content : String
  handwritten : Bool
deriving DecidableEq, Repr

/-- Model of a browser `Blob` as the data the repository put into it:
either a plain-text blob built from a content string, or the PDF produced by
`createHandwrittenPdf` from a content string and the selected font. -/
inductive Blob where
  | text (content : String)
  | pdf (content : String) (font : String)
deriving DecidableEq, Repr

/-- Model of `FileBlob` (types.ts): a `GeneratedFile` plus its blob. -/
structure FileBlob where
  name : String
  content : String
  handwritten : Bool
  blob : Blob
deriving DecidableEq, Repr

/-! ## String helpers modelling JS string methods -/

/-- Model of `name.split(sep)` for a single-character separator, on the
character list of the string: JS `split` keeps empty segments, and an empty
input yields one empty segment. -/
def splitChar (sep : Char) : List Char → List (List Char)
  | [] => [[]]
  | c :: rest =>
    if c = sep then [] :: splitChar sep rest
    else match splitChar sep rest with
      | [] => [[c]]
      | s :: ss => (c :: s) :: ss

/-- Model of `s.startsWith(pre)` from JS (Lean's own `String.startsWith` is
not kernel-reducible, so we use the character lists). -/
def strStartsWith (s pre : String) : Bool := pre.toList.isPrefixOf s.toList

/-- Model of `file.name.split('.').slice(0, -1).join('.') + '.pdf'`
from `handleSolve` (AssignmentView): the rewritten name of a generated file
rendered as a handwritten PDF. -/
def pdfFileName (name : String) : String :=
  String.intercalate "." (((splitChar '.' name.toList).dropLast).map (fun l => String.mk l))
    ++ ".pdf"

/-! ## AssignmentView solve pipeline (components/AssignmentView.tsx) -/

/-- Model of the `Status` enum of AssignmentView. -/
inductive Status where
  | IDLE
  | SOLVING
  | GENERATING_FILES
  | ZIPPING
  | UPLOADING
  | SUBMITTING
  | DONE
  | ERROR
deriving DecidableEq, Repr

/-- Model of the per-file body of the `filesToGenerate.map` in `handleSolve`:
a handwritten file is rendered by `createHandwrittenPdf` (with the selected
font) and its name rewritten by dropping the last dot-segment and appending
`.pdf`; a non-handwritten file keeps its name and becomes a text blob holding
exactly its content. -/
def processFile (font : String) (file : GeneratedFile) : FileBlob :=
  if file.handwritten then
    { name := pdfFileName file.name
      content := file.content
      handwritten := file.handwritten
      blob := Blob.pdf file.content font }
  else
    { name := file.name
      content := file.content
      handwritten := file.handwritten
      blob := Blob.text file.content }

/-- The zip archive is modelled as the sequence of `zip.file(name, blob)`
calls issued to JSZip. -/
abbrev ZipEntries := List (String × Blob)

/-- The error banner set by the catch of `handleSolve`. -/
def solveErrorMessage : String :=
  "Failed to solve assignment. The AI might be unavailable or the request failed. Please try again."

/-- The component state that `handleSolve` / `handleSubmit` update. -/
structure SolveState where
  status : Status
  error : Option String
  generatedFiles : List FileBlob
  zipBlob : Option ZipEntries
deriving DecidableEq, Repr

/-- Model of `handleSolve` (AssignmentView): the awaited AI round trip
(generateContent + JSON parse) is the environment value `aiResult`; on
success the files are turned into blobs, a zip is built only when more than
one file was generated, and the status ends at DONE; any throw is caught and
surfaced as the error banner with status ERROR. -/
def handleSolve (aiResult : Except String (List GeneratedFile)) (font : String) : SolveState :=
  match aiResult with
  | Except.error _ =>
    { status := Status.ERROR
      error := some solveErrorMessage
      generatedFiles := []
      zipBlob := none }
  | Except.ok filesToGenerate =>
    let fileBlobs := filesToGenerate.map (processFile font)
    { status := Status.DONE
      error := none
      generatedFiles := fileBlobs
      zipBlob :=
        if fileBlobs.length > 1 then
          some (fileBlobs.map (fun f => (f.name, f.blob)))
        else none }

/-! ## Classroom API service: response reshaping (services/classroomApi.ts) -/

/-- Raw course record as returned by `classroom.courses.list`; `section` is
optional in the API response. -/
structure RawCourse where
  id : String
  name : String
  «section» : Option String
  ownerId : String
deriving DecidableEq, Repr

/-- Model of the per-course teacher name computation in `getCourses`: the
`classroom.users.get` lookup either throws (caught, keeping the default), or
returns a result whose `name.fullName` may be absent.  The name defaults to
`N/A`. -/
def teacherNameOf (lookup : Except String (Option String)) : String :=
  match lookup with
  | Except.ok (some fullName) => fullName
  | _ => "N/A"

/-- Model of the reshaping of one raw course in `getCourses`. -/
def courseOfRaw (getTeacher : String → Except String (Option String)) (c : RawCourse) :
    Course :=
  { id := c.id
    name := c.name
    «section» := c.«section».getD "General"
    teacher := teacherNameOf (getTeacher c.ownerId) }

/-- Model of `getCourses`: the raw course list (already defaulted to `[]` by
`response.result.courses || []`) is reshaped course by course. -/
def getCourses (getTeacher : String → Except String (Option String))
    (rawCourses : List RawCourse) : List Course :=
  rawCourses.map (courseOfRaw getTeacher)

/-- Raw due date of a coursework item (`item.dueDate`). -/
structure RawDate where
  year : Int
  month : Int
  day : Int
deriving DecidableEq, Repr

/-- Raw material of a coursework item; only materials with a `driveFile` are
kept, and its nested `driveFile.driveFile` record is modelled flat. -/
structure RawMaterial where
  driveFile : Option DriveFile
deriving DecidableEq, Repr

/-- Raw coursework item as returned by `courseWork.list`; `description`,
`dueDate` and `materials` are optional in the API response. -/
structure RawCourseWork where
  id : String
  courseId : String
  title : String
  description : Option String
  dueDate : Option RawDate
  materials : Option (List RawMaterial)
deriving DecidableEq, Repr

/-- One entry of `studentSubmissions.list`. -/
structure RawSubmission where
  courseWorkId : String
  id : String
deriving DecidableEq, Repr

/-- Model of `formatDate` (services/classroomApi.ts): a missing date becomes
the string `No due date`; otherwise `new Date(year, month - 1, day)` is
rendered by `toLocaleDateString`, modelled by the abstract locale formatter
`locale` applied to the constructor arguments. -/
def formatDate (locale : Int → Int → Int → String) (date : Option RawDate) : String :=
  match date with
  | none => "No due date"
  | some d => locale d.year (d.month - 1) d.day

/-- Model of the `submissionsMap` built in `getAssignments`: `Map.set` per
submission, so for a repeated `courseWorkId` the last entry wins. -/
def submissionIdFor (subs : List RawSubmission) (courseWorkId : String) : Option String :=
  (subs.reverse.find? (fun s => s.courseWorkId == courseWorkId)).map (fun s => s.id)

/-- Model of the attachment extraction in `getAssignments`:
`(item.materials || []).filter(m => m.driveFile).map(...)`. -/
def attachmentsOf (item : RawCourseWork) : List Attachment :=
  ((item.materials.getD []).filterMap (fun m => m.driveFile)).map
    (fun df => { title := df.title, driveFile := df })

/-- Model of the reshaping of one coursework item in `getAssignments`. -/
def assignmentOfRaw (locale : Int → Int → Int → String)
    (submissionId : String → Option String) (item : RawCourseWork) : Assignment :=
  { id := item.id
    courseId := item.courseId
    title := item.title
    description := item.description.getD "No description provided."
    dueDate := formatDate locale item.dueDate
    attachments := attachmentsOf item
    studentSubmissionId := submissionId item.id }

/-- Model of `getAssignments`: every coursework item (already defaulted to
`[]`) is reshaped with the submissions map of the course. -/
def getAssignments (locale : Int → Int → Int → String) (subs : List RawSubmission)
    (coursework : List RawCourseWork) : List Assignment :=
  coursework.map (assignmentOfRaw locale (submissionIdFor subs))

/-! ## Classroom API service: attachment content (services/classroomApi.ts) -/

/-- Model of the `googleMimeTypes` export-type table in
`getAttachmentContent`. -/
def googleMimeTypes (mimeType : String) : Option String :=
  if mimeType = "application/vnd.google-apps.document" then some "text/plain"
  else if mimeType = "application/vnd.google-apps.spreadsheet" then some "text/csv"
  else if mimeType = "application/vnd.google-apps.presentation" then some "text/plain"
  else none

/-- Model of `mimeType.startsWith('image/') || mimeType === 'application/pdf'`. -/
def readableImageOrPdf (mimeType : String) : Bool :=
  strStartsWith mimeType "image/" || mimeType == "application/pdf"

/-- The base64 alphabet used by `btoa`. -/
def base64Chars : List Char :=
  "ABCDEFGHIJKLMNOPQRSTUVWXYZabcdefghijklmnopqrstuvwxyz0123456789+/".toList

/-- Base64 digit for a 6-bit value. -/
def b64Digit (n : Nat) : Char := base64Chars.getD n 'A'

/-- Base64 encoding of a byte list, with `=` padding as produced by `btoa`. -/
def b64Encode : List Nat → String
  | [] => ""
  | [a] =>
    String.mk [b64Digit (a / 4), b64Digit (a % 4 * 16)] ++ "=="
  | [a, b] =>
    String.mk [b64Digit (a / 4), b64Digit (a % 4 * 16 + b / 16), b64Digit (b % 16 * 4)] ++ "="
  | a :: b :: c :: rest =>
    String.mk [b64Digit (a / 4), b64Digit (a % 4 * 16 + b / 16),
      b64Digit (b % 16 * 4 + c / 64), b64Digit (c % 64)] ++ b64Encode rest

/-- Model of the browser `btoa` on a binary-string body: each character is a
byte (the repository applies it to Drive media bodies, whose characters are
byte values). -/
def btoa (s : String) : String := b64Encode (s.toList.map (fun c => c.toNat % 256))

/-- One Drive API call issued by `getAttachmentContent`. -/
inductive DriveCall where
  | exportFile (fileId : String) (mimeType : String)
  | getMedia (fileId : String)
deriving DecidableEq, Repr

/-- Environment of `getAttachmentContent`: the two Drive calls it may await,
each either returning a response body or throwing. -/
structure DriveEnv where
  exportFile : String → String → Except String String
  getFileMedia : String → Except String String

/-- The catch-all message of `getAttachmentContent`. -/
def attachmentErrorMessage : String := "[Error reading attachment content.]"

/-- The sentinel for an oversized image/PDF body. -/
def tooLargeMessage (mimeType : String) : String :=
  "[Content of file type (" ++ mimeType ++ ") is too large to be read by the assistant.]"

/-- The sentinel for an unreadable mime type. -/
def cannotReadMessage (mimeType : String) : String :=
  "[Content of file type (" ++ mimeType ++ ") cannot be read by the assistant.]"

/-- Model of `getAttachmentContent` (services/classroomApi.ts) together with
the trace of Drive calls it issues: Google Workspace types are exported as
text; images and PDFs are fetched and base64-encoded into a data URL unless
the body exceeds 3*1024*1024 (then a too-large sentinel); other types get a
cannot-read sentinel without any call; any throw is caught and becomes the
error sentinel. -/
def getAttachmentContentT (env : DriveEnv) (fileId mimeType : String) :
    String × List DriveCall :=
  match googleMimeTypes mimeType with
  | some exportMime =>
    match env.exportFile fileId exportMime with
    | Except.ok body => (body, [DriveCall.exportFile fileId exportMime])
    | Except.error _ => (attachmentErrorMessage, [DriveCall.exportFile fileId exportMime])
  | none =>
    if readableImageOrPdf mimeType then
      match env.getFileMedia fileId with
      | Except.ok body =>
        if body.length > 3 * 1024 * 1024 then
          (tooLargeMessage mimeType, [DriveCall.getMedia fileId])
        else
          ("data:" ++ mimeType ++ ";base64," ++ btoa body, [DriveCall.getMedia fileId])
      | Except.error _ => (attachmentErrorMessage, [DriveCall.getMedia fileId])
    else
      (cannotReadMessage mimeType, [])

/-- The string `getAttachmentContent` resolves with (it never rejects: every
branch of the source returns, and the try/catch swallows every throw). -/
def getAttachmentContent (env : DriveEnv) (fileId mimeType : String) : String :=
  (getAttachmentContentT env fileId mimeType).fst

/-! ## Classroom API service: submission (services/classroomApi.ts) -/

/-- One external call issued by `submitAssignment`. -/
inductive ApiCall where
  | driveUpload (fileName : String)
  | modifyAttachments (courseId : String) (courseWorkId : String) (submissionId : String)
      (fileIds : List String)
  | turnIn (courseId : String) (courseWorkId : String) (submissionId : String)
deriving DecidableEq, Repr

/-- Whether a call is one of the two Classroom submission calls. -/
def ApiCall.isClassroomCall : ApiCall → Bool
  | ApiCall.driveUpload _ => false
  | _ => true

/-- Environment of `submitAssignment`: the current access token, the outcome
of the multipart Drive upload fetch for each file (either the created file id
or the HTTP error body message), and the outcomes of the two Classroom
calls. -/
structure SubmitEnv where
  accessToken : Option String
  uploadResult : FileBlob → Except String String
  modifyResult : Except String Unit
  turnInResult : Except String Unit

/-- Model of the resolved value `{ success: true }` of `submitAssignment`. -/
structure SubmitSuccess where
  success : Bool
deriving DecidableEq, Repr

/-- Model of `uploadFileToDrive`: without an access token it throws
`Not authenticated` before any fetch; otherwise the multipart fetch either
yields the Drive file id or a non-ok response whose error message is wrapped
and thrown. -/
def uploadFileToDrive (env : SubmitEnv) (file : FileBlob) : Except String String :=
  match env.accessToken with
  | none => Except.error "Not authenticated"
  | some _ =>
    match env.uploadResult file with
    | Except.ok fileId => Except.ok fileId
    | Except.error msg => Except.error ("Google Drive upload failed: " ++ msg)

/-- Model of `Promise.all` over upload results: resolves with all values, or
rejects with the first rejection. -/
def collectAll : List (Except String String) → Except String (List String)
  | [] => Except.ok []
  | Except.error e :: _ => Except.error e
  | Except.ok v :: rest =>
    match collectAll rest with
    | Except.error e => Except.error e
    | Except.ok vs => Except.ok (v :: vs)

/-- Model of `submitAssignment` with its call trace: all per-file Drive
uploads are started (each fetch is issued when a token is present, none when
the token is missing), then—only if every upload resolved—`modifyAttachments`
is issued with all returned Drive file ids, then `turnIn`, and the promise
resolves with `{ success: true }`.  Any rejection propagates and stops the
sequence at that point. -/
def submitAssignment (env : SubmitEnv) (courseId courseWorkId submissionId : String)
    (files : List FileBlob) : Except String SubmitSuccess × List ApiCall :=
  let uploadCalls : List ApiCall :=
    match env.accessToken with
    | none => []
    | some _ => files.map (fun f => ApiCall.driveUpload f.name)
  match collectAll (files.map (uploadFileToDrive env)) with
  | Except.error e => (Except.error e, uploadCalls)
  | Except.ok driveFileIds =>
    match env.modifyResult with
    | Except.error e =>
      (Except.error e,
        uploadCalls ++
          [ApiCall.modifyAttachments courseId courseWorkId submissionId driveFileIds])
    | Except.ok _ =>
      match env.turnInResult with
      | Except.error e =>
        (Except.error e,
          uploadCalls ++
            [ApiCall.modifyAttachments courseId courseWorkId submissionId driveFileIds,
             ApiCall.turnIn courseId courseWorkId submissionId])
      | Except.ok _ =>
        (Except.ok { success := true },
          uploadCalls ++
            [ApiCall.modifyAttachments courseId courseWorkId submissionId driveFileIds,
             ApiCall.turnIn courseId courseWorkId submissionId])

/-! ## Auth service (services/auth.ts, services/env.ts) -/

/-- The placeholder client id shipped in services/env.ts. -/
def GOOGLE_CLIENT_ID : String := "YOUR_GOOGLE_CLIENT_ID"

/-- The placeholder API key shipped in services/env.ts. -/
def API_KEY : String := "YOUR_API_KEY"

/-- The error thrown by `initClient` when a credential is still a
placeholder. -/
def keysNotConfiguredMessage : String :=
  "API keys are not configured. Please add your credentials in services/env.ts."

/-- The error thrown when the gapi client / token client initialization
fails. -/
def initFailedMessage : String :=
  "Could not initialize Google APIs. Please ensure you have enabled \x27Google Classroom API\x27 and \x27Google Drive API\x27 in your Google Cloud Console and that your API Key is correct."

/-- One step of `initClient` after the credential check. -/
inductive InitStep where
  | loadScripts
  | gapiClientInit
  | tokenClientInit
deriving DecidableEq, Repr

/-- Environment of `initClient`: the awaited script-loading promise and the
gapi client / token client initialization, each of which may throw. -/
structure InitEnv where
  scriptsLoad : Except String Unit
  gapiInit : Except String Unit

/-- Model of `AuthService.initClient` with its step trace: if either
credential still begins with `YOUR_`, it throws the configuration error
before anything else (empty trace); otherwise it waits for the Google
scripts, then initializes the gapi client and the token client, mapping any
initialization throw to `initFailedMessage`. -/
def initClient (clientId apiKey : String) (env : InitEnv) :
    Except String Unit × List InitStep :=
  if strStartsWith clientId "YOUR_" || strStartsWith apiKey "YOUR_" then
    (Except.error keysNotConfiguredMessage, [])
  else
    match env.scriptsLoad with
    | Except.error e => (Except.error e, [InitStep.loadScripts])
    | Except.ok _ =>
      match env.gapiInit with
      | Except.error _ =>
        (Except.error initFailedMessage, [InitStep.loadScripts, InitStep.gapiClientInit])
      | Except.ok _ =>
        (Except.ok (),
          [InitStep.loadScripts, InitStep.gapiClientInit, InitStep.tokenClientInit])

/-! ## Dashboard component (components/Dashboard.tsx) -/

/-- The error banner of the Dashboard course fetch. -/
def coursesErrorMessage : String :=
  "Could not fetch courses. Please ensure you\x27ve granted Classroom permissions."

/-- The error banner of the Dashboard assignment fetch for a course. -/
def assignmentsErrorMessage (course : Course) : String :=
  "Could not fetch assignments for " ++ course.name ++ "."

/-- The Dashboard component state touched by its two fetch effects. -/
structure DashState where
  courses : List Course
  assignments : List Assignment
  selectedCourse : Option Course
  selectedAssignment : Option Assignment
  isCoursesLoading : Bool
  isAssignmentsLoading : Bool
  error : Option String
deriving Repr

/-- Model of the Dashboard mount effect fetching courses: loading is set and
the banner cleared, then the settled `getCourses` promise either stores the
courses or sets the error banner, and loading is cleared in `finally`. -/
def fetchCoursesEffect (result : Except String (List Course)) (s : DashState) : DashState :=
  let s1 := { s with isCoursesLoading := true, error := none }
  match result with
  | Except.ok cs => { s1 with courses := cs, isCoursesLoading := false }
  | Except.error _ =>
    { s1 with error := some coursesErrorMessage, isCoursesLoading := false }

/-- Model of `selectCourse`: the course is selected, the assignment list
reset, loading set and the banner cleared, then the settled `getAssignments`
promise either stores the assignments or sets the per-course error banner,
and loading is cleared in `finally`. -/
def selectCourse (course : Course) (result : Except String (List Assignment))
    (s : DashState) : DashState :=
  let s1 := { s with
    selectedCourse := some course
    selectedAssignment := none
    assignments := []
    isAssignmentsLoading := true
    error := none }
  match result with
  | Except.ok fetched => { s1 with assignments := fetched, isAssignmentsLoading := false }
  | Except.error _ =>
    { s1 with error := some (assignmentsErrorMessage course), isAssignmentsLoading := false }

/-! ## AssignmentView: submit handler and attachment-fetch effect -/

/-- The submission-status flag of AssignmentView. -/
inductive SubmissionStatus where
  | IDLE
  | SUCCESS
deriving DecidableEq, Repr

/-- The guard message of `handleSubmit` when the assignment has no
`studentSubmissionId`. -/
def missingSubmissionMessage : String :=
  "Cannot submit: Student submission details are missing."

/-- The AssignmentView state touched by `handleSubmit`. -/
structure SubmitViewState where
  status : Status
  error : Option String
  submissionStatus : SubmissionStatus
deriving DecidableEq, Repr

/-- Model of `handleSubmit` (AssignmentView) with the trace of external calls
it causes: without a `studentSubmissionId` it sets the guard message and
ERROR and returns before `submitAssignment`, so no call is issued; otherwise
it clears the error, runs `submitAssignment`, and maps success to
SUCCESS/DONE and rejection to the wrapped error banner with ERROR. -/
def handleSubmit (env : SubmitEnv) (course : Course) (assignment : Assignment)
    (generatedFiles : List FileBlob) (s : SubmitViewState) :
    SubmitViewState × List ApiCall :=
  match assignment.studentSubmissionId with
  | none =>
    ({ s with error := some missingSubmissionMessage, status := Status.ERROR }, [])
  | some submissionId =>
    let s1 := { s with error := none, status := Status.UPLOADING }
    match submitAssignment env course.id assignment.id submissionId generatedFiles with
    | (Except.ok _, calls) =>
      ({ s1 with submissionStatus := SubmissionStatus.SUCCESS, status := Status.DONE }, calls)
    | (Except.error e, calls) =>
      ({ s1 with error := some ("Submission failed: " ++ e), status := Status.ERROR }, calls)

/-- Model of a JS object property assignment `m[k] = v` on a string-keyed
record kept as an insertion-ordered association list: an existing key is
updated in place, a new key is appended. -/
def setKey : List (String × String) → String → String → List (String × String)
  | [], k, v => [(k, v)]
  | (k0, v0) :: rest, k, v =>
    if k0 = k then (k0, v) :: rest else (k0, v0) :: setKey rest k v

/-- The content fetched for one attachment by the AssignmentView effect:
`classroomApi.getAttachmentContent(att.driveFile.id, att.driveFile.mimeType)`. -/
def attachmentContent (env : DriveEnv) (att : Attachment) : String :=
  getAttachmentContent env att.driveFile.id att.driveFile.mimeType

/-- Model of the attachment-fetch effect of AssignmentView: every attachment
content is fetched via `getAttachmentContent` and written into the `contents`
record under the attachment title; `order` is the order in which the parallel
promises complete (a permutation of the attachment list). -/
def attachmentContentsInOrder (env : DriveEnv) (order : List Attachment) :
    List (String × String) :=
  order.foldl (fun m att => setKey m att.title (attachmentContent env att)) []

/-! ## Claims -/

/-- C7: `initClient` fails with the keys-not-configured error whenever either
configured credential string still begins with `YOUR_`, and does so before
any script loading (its step trace is empty); with both placeholders replaced
it proceeds to script loading first.  The constants shipped in
services/env.ts are both placeholders. -/
theorem C7_initClient_placeholder_guard :
    (∀ clientId apiKey env,
      (strStartsWith clientId "YOUR_" = true ∨ strStartsWith apiKey "YOUR_" = true) →
        initClient clientId apiKey env = (Except.error keysNotConfiguredMessage, [])) ∧
    (∀ clientId apiKey env,
      strStartsWith clientId "YOUR_" = false → strStartsWith apiKey "YOUR_" = false →
        (initClient clientId apiKey env).snd.head? = some InitStep.loadScripts) ∧
    strStartsWith GOOGLE_CLIENT_ID "YOUR_" = true ∧
    strStartsWith API_KEY "YOUR_" = true := by
  refine ⟨?_, ?_, by decide, by decide⟩
  · intro clientId apiKey env h
    rcases h with h | h <;> simp [initClient, h]
  · intro clientId apiKey env h1 h2
    obtain ⟨scripts, gapiInit⟩ := env
    cases scripts <;> cases gapiInit <;> simp [initClient, h1, h2]

/-- Witness for C7 at the shipped placeholder credentials and at replaced
credentials. -/
theorem C7_witness :
    initClient GOOGLE_CLIENT_ID API_KEY
        { scriptsLoad := Except.ok (), gapiInit := Except.ok () } =
      (Except.error keysNotConfiguredMessage, []) ∧
    (initClient "real-client-id" "real-api-key"
        { scriptsLoad := Except.ok (), gapiInit := Except.ok () }).snd.head? =
      some InitStep.loadScripts :=
  ⟨C7_initClient_placeholder_guard.1 GOOGLE_CLIENT_ID API_KEY _ (Or.inl (by decide)),
   C7_initClient_placeholder_guard.2.1 "real-client-id" "real-api-key" _
     (by decide) (by decide)⟩

/-- C10: if the selected assignment has no `studentSubmissionId`,
`handleSubmit` sets the guard error message and ERROR status, leaves the rest
of the state unchanged, and issues no external call at all (in particular it
never reaches `submitAssignment`). -/
theorem C10_handleSubmit_missing_submission_id (env : SubmitEnv) (course : Course)
    (assignment : Assignment) (generatedFiles : List FileBlob) (s : SubmitViewState)
    (h : assignment.studentSubmissionId = none) :
    handleSubmit env course assignment generatedFiles s =
      ({ s with error := some missingSubmissionMessage, status := Status.ERROR }, []) := by
  simp [handleSubmit, h]

/-- Witness for C10 at a concrete assignment without a submission id. -/
theorem C10_witness :
    handleSubmit
        { accessToken := none, uploadResult := fun _ => Except.error "http",
          modifyResult := Except.ok (), turnInResult := Except.ok () }
        { id := "c1", name := "Math", «section» := "General", teacher := "N/A" }
        { id := "a1", courseId := "c1", title := "HW", description := "d",
          dueDate := "No due date", attachments := [], studentSubmissionId := none }
        []
        { status := Status.DONE, error := none, submissionStatus := SubmissionStatus.IDLE } =
      ({ status := Status.ERROR, error := some missingSubmissionMessage,
         submissionStatus := SubmissionStatus.IDLE }, []) :=
  C10_handleSubmit_missing_submission_id _ _ _ _ _ rfl

/-- C9: in `handleSolve`, a handwritten generated file becomes a PDF blob and
its name is rewritten to the dot-segments before the last one rejoined with
dots plus `.pdf` (so `notes.final.txt` becomes `notes.final.pdf` and a
dot-free name becomes the bare `.pdf`), while a non-handwritten file keeps
its name and becomes a plain-text blob holding exactly its content. -/
theorem C9_processFile_name_and_blob (font : String) (file : GeneratedFile) :
    (file.handwritten = true →
      processFile font file =
        { name := pdfFileName file.name, content := file.content, handwritten := true,
          blob := Blob.pdf file.content font }) ∧
    (file.handwritten = false →
      processFile font file =
        { name := file.name, content := file.content, handwritten := false,
          blob := Blob.text file.content }) ∧
    pdfFileName "notes.final.txt" = "notes.final.pdf" ∧
    pdfFileName "nodotname" = ".pdf" := by
  refine ⟨?_, ?_, by decide, by decide⟩ <;> intro h <;> simp [processFile, h]

/-- Witness for C9 at a concrete handwritten file with a two-dot name. -/
theorem C9_witness :
    processFile "Caveat" { name := "notes.final.txt", content := "sol", handwritten := true } =
      { name := "notes.final.pdf", content := "sol", handwritten := true,
        blob := Blob.pdf "sol" "Caveat" } :=
  ((C9_processFile_name_and_blob "Caveat"
      { name := "notes.final.txt", content := "sol", handwritten := true }).1 rfl).trans
    (by decide)

/-- C4: after a successful `handleSolve` run, a zip is produced iff the AI
returned strictly more than one file; with at least two files the zip holds
every generated file under its final name, with exactly one file `zipBlob`
stays `none`, and the generated-files list always holds the processed
files (each individually downloadable). -/
theorem C4_zip_iff_multiple_files (font : String) (files : List GeneratedFile) :
    ((handleSolve (Except.ok files) font).zipBlob.isSome = true ↔ 1 < files.length) ∧
    (1 < files.length →
      (handleSolve (Except.ok files) font).zipBlob =
        some ((files.map (processFile font)).map (fun f => (f.name, f.blob)))) ∧
    (files.length = 1 → (handleSolve (Except.ok files) font).zipBlob = none) ∧
    (handleSolve (Except.ok files) font).generatedFiles = files.map (processFile font) := by
  refine ⟨?_, ?_, ?_, by simp [handleSolve]⟩
  · by_cases h : 1 < files.length <;> simp [handleSolve, h]
  · intro h; simp [handleSolve, h]
  · intro h; simp [handleSolve, h]

/-- Witness for C4 at a two-file run (zip with both final names) and a
one-file run (no zip). -/
theorem C4_witness :
    (handleSolve (Except.ok
        [{ name := "a.txt", content := "A", handwritten := false },
         { name := "b.txt", content := "B", handwritten := true }]) "Caveat").zipBlob =
      some [("a.txt", Blob.text "A"), ("b.pdf", Blob.pdf "B" "Caveat")] ∧
    (handleSolve (Except.ok
        [{ name := "a.txt", content := "A", handwritten := false }]) "Caveat").zipBlob =
      none :=
  ⟨((C4_zip_iff_multiple_files "Caveat"
      [{ name := "a.txt", content := "A", handwritten := false },
       { name := "b.txt", content := "B", handwritten := true }]).2.1 (by decide)).trans
    (by decide),
   (C4_zip_iff_multiple_files "Caveat"
      [{ name := "a.txt", content := "A", handwritten := false }]).2.2.1 rfl⟩

/-- `Promise.all` over uploads that all resolve yields all values in order. -/
theorem collectAll_map_ok {α : Type} (g : α → Except String String) (h : α → String)
    (l : List α) (hl : ∀ x ∈ l, g x = Except.ok (h x)) :
    collectAll (l.map g) = Except.ok (l.map h) := by
  induction l with
  | nil => rfl
  | cons x xs ih =>
    have hx := hl x (by simp)
    have hrest := ih (fun y hy => hl y (by simp [hy]))
    simp [collectAll, hx, hrest]

/-- `Promise.all` rejects when one of its promises rejects. -/
theorem collectAll_error_of_mem {l : List (Except String String)} {e : String}
    (h : Except.error e ∈ l) : ∃ e2, collectAll l = Except.error e2 := by
  induction l with
  | nil => simp at h
  | cons x xs ih =>
    cases x with
    | error e0 => exact ⟨e0, rfl⟩
    | ok v =>
      have hx : Except.error e ∈ xs := by simpa using h
      obtain ⟨e2, he2⟩ := ih hx
      exact ⟨e2, by simp [collectAll, he2]⟩

/-- C2: with a non-empty file list, an access token, and all external calls
succeeding, `submitAssignment` performs the two-step sequence: after the
per-file Drive uploads it issues exactly `modifyAttachments` carrying every
returned Drive file id, then `turnIn`, in that order, and resolves with
`{ success := true }`. -/
theorem C2_submit_two_step (env : SubmitEnv) (courseId courseWorkId submissionId : String)
    (files : List FileBlob) (fid : FileBlob → String) (tok : String)
    (_hne : files ≠ [])
    (htok : env.accessToken = some tok)
    (hup : ∀ f ∈ files, env.uploadResult f = Except.ok (fid f))
    (hmod : env.modifyResult = Except.ok ())
    (hturn : env.turnInResult = Except.ok ()) :
    submitAssignment env courseId courseWorkId submissionId files =
      (Except.ok { success := true },
        files.map (fun f => ApiCall.driveUpload f.name) ++
          [ApiCall.modifyAttachments courseId courseWorkId submissionId (files.map fid),
           ApiCall.turnIn courseId courseWorkId submissionId]) := by
  have hupload : ∀ f ∈ files, uploadFileToDrive env f = Except.ok (fid f) := by
    intro f hf
    simp [uploadFileToDrive, htok, hup f hf]
  simp [submitAssignment, htok, collectAll_map_ok (uploadFileToDrive env) fid files hupload,
    hmod, hturn]

/-- Witness for C2 at a concrete one-file submission with a fully succeeding
environment. -/
theorem C2_witness :
    submitAssignment
        { accessToken := some "tok",
          uploadResult := fun _ => Except.ok "driveId1",
          modifyResult := Except.ok (), turnInResult := Except.ok () }
        "course1" "work1" "sub1"
        [{ name := "a.txt", content := "A", handwritten := false, blob := Blob.text "A" }] =
      (Except.ok { success := true },
        [ApiCall.driveUpload "a.txt",
         ApiCall.modifyAttachments "course1" "work1" "sub1" ["driveId1"],
         ApiCall.turnIn "course1" "work1" "sub1"]) :=
  C2_submit_two_step _ "course1" "work1" "sub1"
    [{ name := "a.txt", content := "A", handwritten := false, blob := Blob.text "A" }]
    (fun _ => "driveId1") "tok" (by decide) rfl
    (by intro f hf; simp only [List.mem_singleton] at hf; subst hf; rfl) rfl rfl

/-- C3: if any single Drive upload inside `submitAssignment` fails (missing
access token or a non-ok upload response), the whole call rejects and the
trace contains no Classroom call: neither `modifyAttachments` nor `turnIn`
is ever issued, so the student submission is left unchanged. -/
theorem C3_upload_failure_halts (env : SubmitEnv)
    (courseId courseWorkId submissionId : String) (files : List FileBlob)
    (hfail : ∃ f ∈ files, ∃ e, uploadFileToDrive env f = Except.error e) :
    (∃ e, (submitAssignment env courseId courseWorkId submissionId files).fst =
      Except.error e) ∧
    ∀ c ∈ (submitAssignment env courseId courseWorkId submissionId files).snd,
      c.isClassroomCall = false := by
  obtain ⟨f, hf, e, he⟩ := hfail
  have hmem : Except.error e ∈ files.map (uploadFileToDrive env) := by
    exact he ▸ List.mem_map_of_mem _ hf
  obtain ⟨e2, hcoll⟩ := collectAll_error_of_mem hmem
  constructor
  · exact ⟨e2, by simp [submitAssignment, hcoll]⟩
  · intro c hc
    simp only [submitAssignment, hcoll] at hc
    cases htok : env.accessToken with
    | none => simp [htok] at hc
    | some tok =>
      simp [htok] at hc
      obtain ⟨g, _, hg⟩ := hc
      simp [← hg, ApiCall.isClassroomCall]

/-- Witness for C3 at a concrete two-file submission whose second upload
returns a non-ok HTTP response. -/
theorem C3_witness :
    (∃ e, (submitAssignment
        { accessToken := some "tok",
          uploadResult := fun f =>
            if f.name = "b.txt" then Except.error "quota exceeded" else Except.ok "driveId1",
          modifyResult := Except.ok (), turnInResult := Except.ok () }
        "course1" "work1" "sub1"
        [{ name := "a.txt", content := "A", handwritten := false, blob := Blob.text "A" },
         { name := "b.txt", content := "B", handwritten := false, blob := Blob.text "B" }]).fst =
      Except.error e) ∧
    ∀ c ∈ (submitAssignment
        { accessToken := some "tok",
          uploadResult := fun f =>
            if f.name = "b.txt" then Except.error "quota exceeded" else Except.ok "driveId1",
          modifyResult := Except.ok (), turnInResult := Except.ok () }
        "course1" "work1" "sub1"
        [{ name := "a.txt", content := "A", handwritten := false, blob := Blob.text "A" },
         { name := "b.txt", content := "B", handwritten := false, blob := Blob.text "B" }]).snd,
      c.isClassroomCall = false :=
  C3_upload_failure_halts _ "course1" "work1" "sub1" _
    ⟨{ name := "b.txt", content := "B", handwritten := false, blob := Blob.text "B" },
      by decide, "Google Drive upload failed: quota exceeded", rfl⟩

/-- C1: every external-call error is caught at the call site and surfaced as
a user-facing message string, halting the step with no retry: the
`handleSolve` catch sets the error banner and ERROR status (and no files or
zip are produced), the Dashboard course and assignment fetch catches set
their error banners and stop loading, the `getAttachmentContent` catch turns
any throw of either Drive call into the error sentinel string, and the
attachment fetch issues at most one Drive call (no retry). -/
theorem C1_errors_caught_and_halt :
    (∀ e font, handleSolve (Except.error e) font =
      { status := Status.ERROR, error := some solveErrorMessage,
        generatedFiles := [], zipBlob := none }) ∧
    (∀ e s, fetchCoursesEffect (Except.error e) s =
      { s with error := some coursesErrorMessage, isCoursesLoading := false }) ∧
    (∀ course e s, selectCourse course (Except.error e) s =
      { s with
        selectedCourse := some course
        selectedAssignment := none
        assignments := []
        isAssignmentsLoading := false
        error := some (assignmentsErrorMessage course) }) ∧
    (∀ env fileId mimeType exportMime e,
      googleMimeTypes mimeType = some exportMime →
      env.exportFile fileId exportMime = Except.error e →
      getAttachmentContent env fileId mimeType = attachmentErrorMessage) ∧
    (∀ env fileId mimeType e,
      googleMimeTypes mimeType = none →
      readableImageOrPdf mimeType = true →
      env.getFileMedia fileId = Except.error e →
      getAttachmentContent env fileId mimeType = attachmentErrorMessage) ∧
    (∀ env fileId mimeType,
      (getAttachmentContentT env fileId mimeType).snd.length ≤ 1) := by
  refine ⟨fun e font => rfl, fun e s => rfl, fun course e s => rfl, ?_, ?_, ?_⟩
  · intro env fileId mimeType exportMime e hg he
    simp [getAttachmentContent, getAttachmentContentT, hg, he]
  · intro env fileId mimeType e hg hr he
    simp [getAttachmentContent, getAttachmentContentT, hg, hr, he]
  · intro env fileId mimeType
    unfold getAttachmentContentT
    cases hg : googleMimeTypes mimeType with
    | some exportMime => cases he : env.exportFile fileId exportMime <;> simp [he]
    | none =>
      by_cases hr : readableImageOrPdf mimeType = true
      · cases hm : env.getFileMedia fileId with
        | ok body => by_cases hl : body.length > 3 * 1024 * 1024 <;> simp [hr, hm, hl]
        | error e => simp [hr, hm]
      · simp [hr]

/-- Witness for C1: an AI failure halts `handleSolve` with the banner, and a
throwing Drive export is caught and surfaced as the sentinel string. -/
theorem C1_witness :
    handleSolve (Except.error "AI unavailable") "Caveat" =
      { status := Status.ERROR, error := some solveErrorMessage,
        generatedFiles := [], zipBlob := none } ∧
    getAttachmentContent
        { exportFile := fun _ _ => Except.error "network down",
          getFileMedia := fun _ => Except.error "network down" }
        "file1" "application/vnd.google-apps.document" = attachmentErrorMessage :=
  ⟨C1_errors_caught_and_halt.1 "AI unavailable" "Caveat",
   C1_errors_caught_and_halt.2.2.2.1
     { exportFile := fun _ _ => Except.error "network down",
       getFileMedia := fun _ => Except.error "network down" }
     "file1" "application/vnd.google-apps.document" "text/plain" "network down"
     (by decide) rfl⟩

/-- C5: the records produced by `getCourses` and `getAssignments` (which map
`courseOfRaw` and `assignmentOfRaw` over the raw API items) always have their
fields defined: a missing section becomes `General`, a failed teacher lookup
yields `N/A`, a missing description becomes `No description provided.`, a
missing due date becomes the string `No due date`, and attachments is always
a list, empty exactly when the item has no drive-file materials. -/
theorem C5_field_defaults (getTeacher : String → Except String (Option String))
    (locale : Int → Int → Int → String) (submissionId : String → Option String) :
    (∀ rawCourses, getCourses getTeacher rawCourses =
      rawCourses.map (courseOfRaw getTeacher)) ∧
    (∀ c : RawCourse, c.«section» = none →
      (courseOfRaw getTeacher c).«section» = "General") ∧
    (∀ c : RawCourse, ∀ e, getTeacher c.ownerId = Except.error e →
      (courseOfRaw getTeacher c).teacher = "N/A") ∧
    (∀ item : RawCourseWork, item.description = none →
      (assignmentOfRaw locale submissionId item).description =
        "No description provided.") ∧
    (∀ item : RawCourseWork, item.dueDate = none →
      (assignmentOfRaw locale submissionId item).dueDate = "No due date") ∧
    (∀ item : RawCourseWork,
      ((assignmentOfRaw locale submissionId item).attachments = [] ↔
        ∀ m ∈ item.materials.getD [], m.driveFile = none)) ∧
    (∀ item : RawCourseWork,
      (assignmentOfRaw locale submissionId item).attachments.length =
        ((item.materials.getD []).filterMap (fun m => m.driveFile)).length) := by
  refine ⟨fun rawCourses => rfl, ?_, ?_, ?_, ?_, ?_, ?_⟩
  · intro c h
    simp [courseOfRaw, h]
  · intro c e h
    simp [courseOfRaw, teacherNameOf, h]
  · intro item h
    simp [assignmentOfRaw, h]
  · intro item h
    simp [assignmentOfRaw, formatDate, h]
  · intro item
    simp [assignmentOfRaw, attachmentsOf, List.filterMap_eq_nil_iff]
  · intro item
    simp [assignmentOfRaw, attachmentsOf]

/-- Witness for C5 at a raw course with no section and a failing teacher
lookup, and a raw coursework item with no description, no due date and no
materials. -/
theorem C5_witness :
    (courseOfRaw (fun _ => Except.error "403")
        { id := "c1", name := "Math", «section» := none, ownerId := "t1" }).«section» =
      "General" ∧
    (courseOfRaw (fun _ => Except.error "403")
        { id := "c1", name := "Math", «section» := none, ownerId := "t1" }).teacher =
      "N/A" ∧
    (assignmentOfRaw (fun _ _ _ => "1/2/2026") (fun _ => none)
        { id := "a1", courseId := "c1", title := "HW", description := none,
          dueDate := none, materials := none }).dueDate = "No due date" :=
  ⟨(C5_field_defaults (fun _ => Except.error "403") (fun _ _ _ => "1/2/2026")
      (fun _ => none)).2.1 _ rfl,
   (C5_field_defaults (fun _ => Except.error "403") (fun _ _ _ => "1/2/2026")
      (fun _ => none)).2.2.1 _ "403" rfl,
   (C5_field_defaults (fun _ => Except.error "403") (fun _ _ _ => "1/2/2026")
      (fun _ => none)).2.2.2.2.1 _ rfl⟩

/-- C8: `getAttachmentContent` is total and never rejects — for every file id
and mime type it resolves with exactly one of: the exported text of a Google
Workspace file, a base64 data URL for an image/PDF body of at most
3*1024*1024 bytes, the too-large sentinel for a bigger image/PDF body, the
cannot-read sentinel for any other mime type, or the error sentinel when the
underlying Drive call throws. -/
theorem C8_getAttachmentContent_cases (env : DriveEnv) (fileId mimeType : String) :
    (∃ exportMime body, googleMimeTypes mimeType = some exportMime ∧
      env.exportFile fileId exportMime = Except.ok body ∧
      getAttachmentContent env fileId mimeType = body) ∨
    (∃ exportMime e, googleMimeTypes mimeType = some exportMime ∧
      env.exportFile fileId exportMime = Except.error e ∧
      getAttachmentContent env fileId mimeType = attachmentErrorMessage) ∨
    (googleMimeTypes mimeType = none ∧ readableImageOrPdf mimeType = true ∧
      ∃ body, env.getFileMedia fileId = Except.ok body ∧
        body.length ≤ 3 * 1024 * 1024 ∧
        getAttachmentContent env fileId mimeType =
          "data:" ++ mimeType ++ ";base64," ++ btoa body) ∨
    (googleMimeTypes mimeType = none ∧ readableImageOrPdf mimeType = true ∧
      ∃ body, env.getFileMedia fileId = Except.ok body ∧
        3 * 1024 * 1024 < body.length ∧
        getAttachmentContent env fileId mimeType = tooLargeMessage mimeType) ∨
    (googleMimeTypes mimeType = none ∧ readableImageOrPdf mimeType = true ∧
      ∃ e, env.getFileMedia fileId = Except.error e ∧
        getAttachmentContent env fileId mimeType = attachmentErrorMessage) ∨
    (googleMimeTypes mimeType = none ∧ readableImageOrPdf mimeType = false ∧
      getAttachmentContent env fileId mimeType = cannotReadMessage mimeType) := by
  cases hg : googleMimeTypes mimeType with
  | some exportMime =>
    cases he : env.exportFile fileId exportMime with
    | ok body =>
      exact Or.inl ⟨exportMime, body, rfl, he,
        by simp [getAttachmentContent, getAttachmentContentT, hg, he]⟩
    | error e =>
      exact Or.inr (Or.inl ⟨exportMime, e, rfl, he,
        by simp [getAttachmentContent, getAttachmentContentT, hg, he]⟩)
  | none =>
    cases hr : readableImageOrPdf mimeType with
    | false =>
      refine Or.inr (Or.inr (Or.inr (Or.inr (Or.inr ⟨rfl, rfl, ?_⟩))))
      simp [getAttachmentContent, getAttachmentContentT, hg, hr]
    | true =>
      cases hm : env.getFileMedia fileId with
      | ok body =>
        by_cases hl : 3 * 1024 * 1024 < body.length
        · refine Or.inr (Or.inr (Or.inr (Or.inl ⟨rfl, rfl, body, rfl, hl, ?_⟩)))
          simp [getAttachmentContent, getAttachmentContentT, hg, hr, hm, hl]
        · refine Or.inr (Or.inr (Or.inl ⟨rfl, rfl, body, rfl, Nat.le_of_not_lt hl, ?_⟩))
          simp [getAttachmentContent, getAttachmentContentT, hg, hr, hm, hl]
      | error e =>
        refine Or.inr (Or.inr (Or.inr (Or.inr (Or.inl ⟨rfl, rfl, e, rfl, ?_⟩))))
        simp [getAttachmentContent, getAttachmentContentT, hg, hr, hm]

/-- Assigning a fresh key appends it to the record. -/
theorem setKey_eq_append (m : List (String × String)) (k v : String)
    (h : ∀ p ∈ m, p.1 ≠ k) : setKey m k v = m ++ [(k, v)] := by
  induction m with
  | nil => rfl
  | cons p rest ih =>
    obtain ⟨k0, v0⟩ := p
    have hk0 : k0 ≠ k := h (k0, v0) (by simp)
    simp [setKey, hk0, ih (fun q hq => h q (by simp [hq]))]

/-- Folding fresh-keyed assignments over a record with disjoint keys appends
one entry per attachment, in fold order. -/
theorem foldl_setKey_eq_append (content : Attachment → String) (order : List Attachment) :
    ∀ acc : List (String × String),
      order.Pairwise (fun a b => a.title ≠ b.title) →
      (∀ p ∈ acc, ∀ a ∈ order, p.1 ≠ a.title) →
      order.foldl (fun m att => setKey m att.title (content att)) acc =
        acc ++ order.map (fun a => (a.title, content a)) := by
  induction order with
  | nil => intro acc _ _; simp
  | cons a rest ih =>
    intro acc hp hacc
    have hpc := List.pairwise_cons.mp hp
    have hstep : setKey acc a.title (content a) = acc ++ [(a.title, content a)] :=
      setKey_eq_append acc a.title (content a) (fun p hpmem => hacc p hpmem a (by simp))
    have hrest : ∀ p ∈ acc ++ [(a.title, content a)], ∀ b ∈ rest, p.1 ≠ b.title := by
      intro p hpmem b hbmem
      rcases List.mem_append.mp hpmem with hmem | hmem
      · exact hacc p hmem b (List.mem_cons_of_mem a hbmem)
      · have hp2 : p = (a.title, content a) := by simpa using hmem
        rw [hp2]
        exact hpc.1 b hbmem
    rw [List.foldl_cons, hstep, ih (acc ++ [(a.title, content a)]) hpc.2 hrest]
    simp

/-- With pairwise distinct titles, the contents record is exactly one entry
per attachment, in completion order. -/
theorem attachmentContents_eq_map (env : DriveEnv) (order : List Attachment)
    (hp : order.Pairwise (fun a b => a.title ≠ b.title)) :
    attachmentContentsInOrder env order =
      order.map (fun a => (a.title, attachmentContent env a)) := by
  simpa [attachmentContentsInOrder] using
    foldl_setKey_eq_append (attachmentContent env) order [] hp (by simp)

/-- Looking up a title in the per-attachment record is a `find?` on the
attachment list. -/
theorem lookup_map_titles (content : Attachment → String) (l : List Attachment) (t : String) :
    List.lookup t (l.map (fun a => (a.title, content a))) =
      (l.find? (fun a => t == a.title)).map content := by
  induction l with
  | nil => rfl
  | cons a rest ih =>
    by_cases h : t = a.title
    · simp [List.lookup, List.find?, h]
    · have hb : (t == a.title) = false := beq_eq_false_iff_ne.mpr h
      simp [List.lookup, List.find?, hb, ih]

/-- With pairwise distinct titles, `find?` returns the unique attachment
carrying the sought title. -/
theorem find?_title_eq_some (t : String) (l : List Attachment) :
    ∀ a : Attachment,
      l.Pairwise (fun x y => x.title ≠ y.title) → a ∈ l → a.title = t →
      l.find? (fun x => t == x.title) = some a := by
  induction l with
  | nil => intro a _ h; simp at h
  | cons b rest ih =>
    intro a hp hmem ht
    have hpc := List.pairwise_cons.mp hp
    rcases List.mem_cons.mp hmem with rfl | hmem2
    · simp [List.find?, ht]
    · have hb : (t == b.title) = false := by
        refine beq_eq_false_iff_ne.mpr (fun h2 => ?_)
        exact hpc.1 a hmem2 (h2.symm.trans ht.symm)
      simp only [List.find?, hb]
      exact ih a hpc.2 hmem2 ht

/-- With pairwise distinct titles, `find?` by title is invariant under
permutation of the list. -/
theorem find?_title_perm (t : String) (l1 l2 : List Attachment)
    (hperm : l1.Perm l2) (hp : l1.Pairwise (fun x y => x.title ≠ y.title)) :
    l1.find? (fun x => t == x.title) = l2.find? (fun x => t == x.title) := by
  cases h : l1.find? (fun x => t == x.title) with
  | none =>
    have hall := List.find?_eq_none.mp h
    symm
    exact List.find?_eq_none.mpr (fun x hx => hall x (hperm.mem_iff.mpr hx))
  | some a =>
    have hpa : t = a.title := by simpa using List.find?_some h
    have hmem : a ∈ l1 := List.mem_of_find?_eq_some h
    have hp2 : l2.Pairwise (fun x y => x.title ≠ y.title) :=
      (hperm.pairwise_iff (fun hxy => Ne.symm hxy)).mp hp
    symm
    exact find?_title_eq_some t l2 a hp2 (hperm.mem_iff.mp hmem) hpa.symm

/-- C6: for an assignment whose attachments have pairwise distinct titles,
the `attachmentContents` record built by the parallel attachment-fetch
effect does not depend on the order in which the per-attachment promises
complete: any two completion orders (permutations of the attachment list)
yield records with identical lookups, and each title maps to the content
fetched by `getAttachmentContent` for that attachment. -/
theorem C6_attachment_map_order_independent (env : DriveEnv)
    (atts order1 order2 : List Attachment)
    (hdist : atts.Pairwise (fun a b => a.title ≠ b.title))
    (h1 : order1.Perm atts) (h2 : order2.Perm atts) :
    (∀ t, List.lookup t (attachmentContentsInOrder env order1) =
      List.lookup t (attachmentContentsInOrder env order2)) ∧
    (∀ att ∈ atts, List.lookup att.title (attachmentContentsInOrder env order1) =
      some (attachmentContent env att)) := by
  have hd1 : order1.Pairwise (fun a b => a.title ≠ b.title) :=
    (h1.pairwise_iff (fun hxy => Ne.symm hxy)).mpr hdist
  have hd2 : order2.Pairwise (fun a b => a.title ≠ b.title) :=
    (h2.pairwise_iff (fun hxy => Ne.symm hxy)).mpr hdist
  constructor
  · intro t
    rw [attachmentContents_eq_map env order1 hd1, attachmentContents_eq_map env order2 hd2,
      lookup_map_titles, lookup_map_titles,
      find?_title_perm t order1 atts h1 hd1, ← find?_title_perm t order2 atts h2 hd2]
  · intro att hmem
    rw [attachmentContents_eq_map env order1 hd1, lookup_map_titles,
      find?_title_eq_some att.title order1 att hd1 (h1.mem_iff.mpr hmem) rfl]
    rfl

/-- A concrete Drive environment for the C6 witness. -/
def sampleDriveEnv : DriveEnv :=
  { exportFile := fun _ _ => Except.ok "doc text"
    getFileMedia := fun _ => Except.ok "mediabody" }

/-- A concrete Google-Docs attachment for the C6 witness. -/
def sampleAtt1 : Attachment where
  title := "Rubric"
  driveFile :=
    { id := "d1"
      title := "Rubric"
      alternateLink := "l1"
      mimeType := "application/vnd.google-apps.document" }

/-- A concrete PDF attachment for the C6 witness. -/
def sampleAtt2 : Attachment where
  title := "Handout.pdf"
  driveFile :=
    { id := "d2"
      title := "Handout.pdf"
      alternateLink := "l2"
      mimeType := "application/pdf" }

/-- Witness for C6: with two distinct-titled attachments, the record built in
swapped completion order has the same lookups as the one built in list order,
and the first title maps to its fetched content. -/
theorem C6_witness :
    (∀ t, List.lookup t (attachmentContentsInOrder sampleDriveEnv [sampleAtt2, sampleAtt1]) =
      List.lookup t (attachmentContentsInOrder sampleDriveEnv [sampleAtt1, sampleAtt2])) ∧
    List.lookup sampleAtt1.title
        (attachmentContentsInOrder sampleDriveEnv [sampleAtt2, sampleAtt1]) =
      some (attachmentContent sampleDriveEnv sampleAtt1) := by
  have h := C6_attachment_map_order_independent sampleDriveEnv
    [sampleAtt1, sampleAtt2] [sampleAtt2, sampleAtt1] [sampleAtt1, sampleAtt2]
    (by simp [sampleAtt1, sampleAtt2])
    (List.Perm.swap sampleAtt1 sampleAtt2 []) (List.Perm.refl _)
  exact ⟨h.1, h.2 sampleAtt1 (by simp)⟩

end AgentHelp
